import Mathlib

/-!
Shallow embedding of the job-tracker pipeline: the identity function and the
validated record model (services/scraping/src/base_model/job_offer.py), the
title filter (base_model/job_scraper_base.py), the storage gateway
(services/storage/src/notion_integration.py), the orchestrator
(services/processing/src/offer_processor.py) and the VIE pagination loop
(services/scraping/src/vie.py).

Python strings are modelled as lists of Unicode code points (`PyStr`); the
case maps are the ASCII maps, which is the fragment the pipeline exercises.
Machine integers do not occur; all arithmetic is on `Nat` with explicit
`% 2 ^ 32` where the SHA-256 rounds overflow.
-/

/-- Python `str` modelled as a list of Unicode code points. -/
abbrev PyStr := List Nat

/-- Code points of a Lean string literal, for writing concrete inputs. -/
def cp (s : String) : PyStr := s.data.map Char.toNat

/-- Whitespace recognised by Python `str.strip` / `str.split` (ASCII range). -/
def isPySpace (n : Nat) : Bool :=
  n == 9 || n == 10 || n == 11 || n == 12 || n == 13 || n == 32

/-- Python `str.lower`, one code point (ASCII fragment). -/
def pyLowerCp (n : Nat) : Nat := if 65 ≤ n ∧ n ≤ 90 then n + 32 else n

/-- Python `str.upper`, one code point (ASCII fragment). -/
def pyUpperCp (n : Nat) : Nat := if 97 ≤ n ∧ n ≤ 122 then n - 32 else n

/-- Python `str.lower`. -/
def pyLower (s : PyStr) : PyStr := s.map pyLowerCp

/-- Python `str.upper`. -/
def pyUpper (s : PyStr) : PyStr := s.map pyUpperCp

/-- Python `str.lstrip()`. -/
def pyStripL (s : PyStr) : PyStr := s.dropWhile isPySpace

/-- Python `str.rstrip()`. -/
def pyStripR (s : PyStr) : PyStr := (s.reverse.dropWhile isPySpace).reverse

/-- Python `str.strip()`. -/
def pyStrip (s : PyStr) : PyStr := pyStripL (pyStripR s)

/-- Python `str.split()` with no argument: words separated by whitespace. -/
def pyWords (s : PyStr) : List PyStr :=
  (s.splitOnP (fun c => isPySpace c)).filter (fun w => w ≠ [])

/-- Python `" ".join(s.split())`: collapse internal whitespace, strip ends. -/
def pyCollapse (s : PyStr) : PyStr := List.intercalate [32] (pyWords s)

/-- Does `hay` start with `needle`? -/
def matchesAt : PyStr → PyStr → Bool
  | [], _ => true
  | _ :: _, [] => false
  | a :: t, b :: u => a == b && matchesAt t u

/-- Python `needle in hay` on strings: contiguous substring test. -/
def pySubstr (needle : PyStr) : PyStr → Bool
  | [] => needle == []
  | b :: u => matchesAt needle (b :: u) || pySubstr needle u

/-! ## SHA-256 over byte lists (job_offer.py uses hashlib.sha256) -/

/-- UTF-8 encoding of one code point. -/
def utf8EncodeCp (n : Nat) : List Nat :=
  if n < 0x80 then [n]
  else if n < 0x800 then [0xC0 + n / 64, 0x80 + n % 64]
  else if n < 0x10000 then
    [0xE0 + n / 4096, 0x80 + (n / 64) % 64, 0x80 + n % 64]
  else
    [0xF0 + n / 262144, 0x80 + (n / 4096) % 64, 0x80 + (n / 64) % 64,
     0x80 + n % 64]

/-- Python `s.encode("utf-8")` as a list of bytes. -/
def utf8Encode (s : PyStr) : List Nat := s.flatMap utf8EncodeCp

/-- Modulus of 32-bit words. -/
def w32 : Nat := 4294967296

/-- Rotate a 32-bit word right by `n`. -/
def rotr32 (n x : Nat) : Nat := ((x >>> n) ||| (x <<< (32 - n))) % w32

/-- SHA-256 round constants (FIPS 180-4, written in decimal). -/
def shaK : List Nat :=
  [1116352408, 1899447441, 3049323471, 3921009573, 961987163,
   1508970993, 2453635748, 2870763221, 3624381080, 310598401,
   607225278, 1426881987, 1925078388, 2162078206, 2614888103,
   3248222580, 3835390401, 4022224774, 264347078, 604807628,
   770255983, 1249150122, 1555081692, 1996064986, 2554220882,
   2821834349, 2952996808, 3210313671, 3336571891, 3584528711,
   113926993, 338241895, 666307205, 773529912, 1294757372,
   1396182291, 1695183700, 1986661051, 2177026350, 2456956037,
   2730485921, 2820302411, 3259730800, 3345764771, 3516065817,
   3600352804, 4094571909, 275423344, 430227734, 506948616,
   659060556, 883997877, 958139571, 1322822218, 1537002063,
   1747873779, 1955562222, 2024104815, 2227730452, 2361852424,
   2428436474, 2756734187, 3204031479, 3329325298]

/-- SHA-256 initial hash state (FIPS 180-4, written in decimal). -/
def shaH0 : List Nat :=
  [1779033703, 3144134277, 1013904242, 2773480762, 1359893119,
   2600822924, 528734635, 1541459225]

/-- Big-endian bytes of a 64-bit length field. -/
def be64 (n : Nat) : List Nat :=
  [(n >>> 56) % 256, (n >>> 48) % 256, (n >>> 40) % 256, (n >>> 32) % 256,
   (n >>> 24) % 256, (n >>> 16) % 256, (n >>> 8) % 256, n % 256]

/-- SHA-256 message padding of a byte list. -/
def shaPad (msg : List Nat) : List Nat :=
  let l := msg.length
  let k := (64 - (l + 9) % 64) % 64
  msg ++ [0x80] ++ List.replicate k 0 ++ be64 (8 * l)

/-- Group bytes into big-endian 32-bit words. -/
def bytesToWords : List Nat → List Nat
  | a :: b :: c :: d :: rest => (((a * 256 + b) * 256 + c) * 256 + d) :: bytesToWords rest
  | _ => []

/-- Split a list into 64-element chunks; `fuel` bounds the recursion and any
`fuel ≥ l.length` yields all chunks. -/
def chunk64Go : Nat → List Nat → List (List Nat)
  | 0, _ => []
  | _, [] => []
  | fuel + 1, a :: t => (a :: t).take 64 :: chunk64Go fuel ((a :: t).drop 64)

/-- Split a list into 64-element chunks. -/
def chunk64 (l : List Nat) : List (List Nat) := chunk64Go l.length l

/-- Extend 16 message words to the 64-word SHA-256 schedule. -/
def shaSchedule (ws : List Nat) : List Nat :=
  (List.range 48).foldl
    (fun w _ =>
      let i := w.length
      let x15 := w.getD (i - 15) 0
      let x2 := w.getD (i - 2) 0
      let s0 := (rotr32 7 x15).xor ((rotr32 18 x15).xor (x15 >>> 3))
      let s1 := (rotr32 17 x2).xor ((rotr32 19 x2).xor (x2 >>> 10))
      w ++ [(w.getD (i - 16) 0 + s0 + w.getD (i - 7) 0 + s1) % w32])
    ws

/-- One SHA-256 compression round. -/
def shaRound (st : List Nat) (kw : Nat × Nat) : List Nat :=
  match st with
  | [a, b, c, d, e, f, g, h] =>
    let s1 := (rotr32 6 e).xor ((rotr32 11 e).xor (rotr32 25 e))
    let ch := (e.land f).xor ((e.xor (w32 - 1)).land g)
    let t1 := (h + s1 + ch + kw.1 + kw.2) % w32
    let s0 := (rotr32 2 a).xor ((rotr32 13 a).xor (rotr32 22 a))
    let maj := (a.land b).xor ((a.land c).xor (b.land c))
    let t2 := (s0 + maj) % w32
    [(t1 + t2) % w32, a, b, c, (d + t1) % w32, e, f, g]
  | other => other

/-- Process one 64-byte block against a hash state. -/
def shaBlock (hs : List Nat) (block : List Nat) : List Nat :=
  let w := shaSchedule (bytesToWords block)
  let st := (shaK.zip w).foldl shaRound hs
  List.zipWith (fun x y => (x + y) % w32) hs st

/-- SHA-256 digest of a byte list, as eight 32-bit words. -/
def sha256Words (msg : List Nat) : List Nat :=
  (chunk64 (shaPad msg)).foldl shaBlock shaH0

/-- Hex digit code points of a word, `width` nibbles, lowercase. -/
def hexOfWord (width x : Nat) : PyStr :=
  (List.range width).map (fun i =>
    let d := (x >>> (4 * (width - 1 - i))) % 16
    if d < 10 then 48 + d else 87 + d)

/-- Python `hashlib.sha256(bytes).hexdigest()` as code points. -/
def sha256Hex (msg : List Nat) : PyStr :=
  (sha256Words msg).flatMap (hexOfWord 8)

/-- Value of a hex-digit code point (lowercase digests only). -/
def hexVal (c : Nat) : Nat := if c ≤ 57 then c - 48 else c - 87

/-- Python `int(s, 16)` on a hex string. -/
def hexToNat (s : PyStr) : Nat := s.foldl (fun acc c => acc * 16 + hexVal c) 0

/-- Decimal digits of `n % 100000`, zero padded to 5 (Python `f"{n:05d}"`). -/
def natTo5Digits (n : Nat) : PyStr :=
  [48 + n / 10000 % 10, 48 + n / 1000 % 10, 48 + n / 100 % 10,
   48 + n / 10 % 10, 48 + n % 10]

/-!
`generate_job_offer_id` from job_offer.py: normalize the three fields
(strip + lower; `url or ""` for a missing url), join with `|`, SHA-256 the
UTF-8 bytes, take the first 5 hex chars as an integer mod 100000, zero-pad.
-/

/-- Embeds `generate_job_offer_id(company, title, url)` of job_offer.py. -/
def generate_job_offer_id (company title : PyStr) (url : Option PyStr) : PyStr :=
  let normalized_company := pyLower (pyStrip company)
  let normalized_title := pyLower (pyStrip title)
  let normalized_url := pyLower (pyStrip (url.getD []))
  let combined_string :=
    normalized_company ++ [124] ++ normalized_title ++ [124] ++ normalized_url
  let hash_hex := sha256Hex (utf8Encode combined_string)
  natTo5Digits (hexToNat (hash_hex.take 5) % 100000)

/-- Embeds `pre_process_url(url)` of job_offer.py: drop from the first `?`. -/
def pre_process_url (url : PyStr) : PyStr :=
  if 63 ∈ url then url.takeWhile (fun c => c != 63) else url

/-- The identity function of spec section 4.2: URL query-string removal
(`pre_process_url`, applied by `JobOffer.validate_url`) followed by
`generate_job_offer_id`. -/
def identityFn (company title url : PyStr) : PyStr :=
  generate_job_offer_id company title (some (pre_process_url url))


/-! ## Normalization lemmas for the identity function -/

theorem isPySpace_pyUpperCp (n : Nat) : isPySpace (pyUpperCp n) = isPySpace n := by
  rw [Bool.eq_iff_iff]
  simp only [isPySpace, pyUpperCp, Bool.or_eq_true, beq_iff_eq]
  split <;> omega

theorem pyLowerCp_pyUpperCp (n : Nat) : pyLowerCp (pyUpperCp n) = pyLowerCp n := by
  unfold pyUpperCp pyLowerCp
  by_cases h : 97 ≤ n ∧ n ≤ 122
  · rw [if_pos h]
    split <;> split <;> omega
  · rw [if_neg h]

theorem dropWhile_isPySpace_map_pyUpperCp (l : PyStr) :
    (l.map pyUpperCp).dropWhile isPySpace = (l.dropWhile isPySpace).map pyUpperCp := by
  induction l with
  | nil => rfl
  | cons a t ih =>
    simp only [List.map_cons, List.dropWhile_cons, isPySpace_pyUpperCp]
    split <;> simp_all

theorem pyStrip_pyUpper (s : PyStr) : pyStrip (pyUpper s) = pyUpper (pyStrip s) := by
  unfold pyStrip pyStripL pyStripR pyUpper
  rw [← List.map_reverse, dropWhile_isPySpace_map_pyUpperCp, ← List.map_reverse,
    dropWhile_isPySpace_map_pyUpperCp]

theorem pyLower_pyUpper (s : PyStr) : pyLower (pyUpper s) = pyLower s := by
  unfold pyLower pyUpper
  rw [List.map_map]
  exact List.map_congr_left (fun a _ => pyLowerCp_pyUpperCp a)

theorem pyStrip_append_spaces (t : PyStr) : pyStrip (t ++ [32, 32]) = pyStrip t := by
  unfold pyStrip pyStripR
  rw [List.reverse_append]
  rfl

theorem takeWhile_ne_63_of_not_mem :
    ∀ u : PyStr, 63 ∉ u → u.takeWhile (fun c => c != 63) = u := by
  intro u
  induction u with
  | nil => intro _; rfl
  | cons a t ih =>
    intro h
    rw [List.mem_cons, not_or] at h
    have ha : (a != 63) = true := by
      simp only [bne_iff_ne, ne_eq]
      exact fun hh => h.1 hh.symm
    simp only [List.takeWhile_cons, ha, if_true, if_pos trivial]
    rw [ih h.2]

theorem pre_process_url_eq_takeWhile (u : PyStr) :
    pre_process_url u = u.takeWhile (fun c => c != 63) := by
  unfold pre_process_url
  by_cases h : (63 : Nat) ∈ u
  · rw [if_pos h]
  · rw [if_neg h, takeWhile_ne_63_of_not_mem u h]

theorem pre_process_url_append_query (u : PyStr) :
    pre_process_url (u ++ cp "?x=1") = pre_process_url u := by
  rw [pre_process_url_eq_takeWhile, pre_process_url_eq_takeWhile]
  induction u with
  | nil => rfl
  | cons a t ih =>
    by_cases ha : a = 63
    · subst ha
      rfl
    · have ha2 : (a != 63) = true := by simpa [bne_iff_ne] using ha
      simp only [List.cons_append, List.takeWhile_cons, ha2]
      rw [ih]

/-! ## Record model: JobOffer and its validation (job_offer.py) -/

/-- Embeds the `JobSource` enumeration. -/
inductive JobSource
  | BUSINESS_FRANCE
  | AIR_FRANCE
  | APPLE
  | WELCOME_TO_THE_JUNGLE
  | LINKEDIN
  | UNKNOWN
deriving DecidableEq

/-- Embeds the `ContractType` enumeration. -/
inductive ContractType
  | CDI
  | CDD
  | INTERNSHIP
  | FREELANCE
  | TEMPORARY
  | FULL_TIME
  | PART_TIME
  | VIE
  | OTHER
deriving DecidableEq

/-- A validated `JobOffer` record. `scraped_at` is an opaque timestamp. -/
structure JobOffer where
  title : PyStr
  company : PyStr
  location : PyStr
  source : JobSource
  url : PyStr
  scraped_at : Nat
  offer_id : PyStr
  contract_type : Option ContractType
  salary : Option PyStr
  duration : Option PyStr
  reference : Option PyStr
  schedule_type : Option PyStr
  job_content_description : Option PyStr
deriving DecidableEq

/-- Python `v.upper() == "N/A"` from `validate_not_na`. -/
def isNA (v : PyStr) : Bool := pyUpper v == cp "N/A"

/-- Embeds `clean_notion_select_fields`: map each of `-`, `,`, `.` to a space,
then collapse whitespace runs and strip. -/
def clean_notion_select (v : PyStr) : PyStr :=
  pyCollapse (v.map (fun c => if c = 45 ∨ c = 44 ∨ c = 46 then 32 else c))

/-- Embeds `normalize_fields`: `" ".join(v.strip().lower().split())`. -/
def normalize_field (v : PyStr) : PyStr :=
  List.intercalate [32] (pyWords (pyLower (pyStrip v)))

/-- Python `s.isdigit()` on ASCII digits: non-empty and all digits. -/
def isDigits (v : PyStr) : Bool :=
  !v.isEmpty && v.all (fun c => 48 ≤ c && c ≤ 57)

/-- Python `v.startswith(("http://", "https://"))` from `validate_url`. -/
def startsWithHttp (u : PyStr) : Bool :=
  matchesAt (cp "http://") u || matchesAt (cp "https://") u

/-- Final value of the title field: stripping only. -/
def finalTitle (title : PyStr) : PyStr := pyStrip title

/-- Final value of a select-typed field that is also normalized
(company, location, salary, reference): strip, clean, normalize. -/
def finalNorm (v : PyStr) : PyStr :=
  normalize_field (clean_notion_select (pyStrip v))

/-- Final value of a select-typed field that is cleaned but not normalized
(duration, schedule_type): strip, clean. -/
def finalClean (v : PyStr) : PyStr := clean_notion_select (pyStrip v)

/-- Final value of the url field: strip, then drop the query string. -/
def finalUrl (url : PyStr) : PyStr := pre_process_url (pyStrip url)

/-- Final value of the offer_id field, per the `generate_offer_id` model
validator: generated from the already-validated company, title and url
when no id was preset. -/
def finalOfferId (company title url offer_id : PyStr) : PyStr :=
  if pyStrip offer_id = [] then
    generate_job_offer_id (finalNorm company) (finalTitle title)
      (some (finalUrl url))
  else pyStrip offer_id

/-- Embeds construction plus validation of a `JobOffer` (pydantic model):
whitespace stripping (`str_strip_whitespace`), the `Field` length
constraints, `validate_url`, `validate_not_na`, `clean_notion_select_fields`,
`normalize_fields`, and the `generate_offer_id` model validator. -/
def validateJobOffer (title company location : PyStr) (source : JobSource)
    (url : PyStr) (scraped_at : Nat) (offer_id : PyStr)
    (contract_type : Option ContractType)
    (salary duration reference schedule_type job_content_description :
      Option PyStr) : Except Unit JobOffer :=
  if (pyStrip title).length < 1 ∨ 500 < (pyStrip title).length then .error ()
  else if (pyStrip company).length < 1 ∨ 200 < (pyStrip company).length then .error ()
  else if (pyStrip location).length < 1 ∨ 200 < (pyStrip location).length then .error ()
  else if 5 < (pyStrip offer_id).length then .error ()
  else if ((salary.map pyStrip).map List.length).getD 0 > 100 then .error ()
  else if ((duration.map pyStrip).map List.length).getD 0 > 100 then .error ()
  else if ((reference.map pyStrip).map List.length).getD 0 > 100 then .error ()
  else if ((schedule_type.map pyStrip).map List.length).getD 0 > 100 then .error ()
  else if ¬ startsWithHttp (pyStrip url) then .error ()
  else if isNA (pyStrip title) ∨ isNA (pyStrip company) ∨ isNA (pyStrip location) then .error ()
  else if (finalOfferId company title url offer_id).length ≠ 5 ∨
      ¬ isDigits (finalOfferId company title url offer_id) then .error ()
  else .ok
    { title := finalTitle title
      company := finalNorm company
      location := finalNorm location
      source := source
      url := finalUrl url
      scraped_at := scraped_at
      offer_id := finalOfferId company title url offer_id
      contract_type := contract_type
      salary := salary.map finalNorm
      duration := duration.map finalClean
      reference := reference.map finalNorm
      schedule_type := schedule_type.map finalClean
      job_content_description := job_content_description.map pyStrip }

/-- The relevant fields of a `JobOfferInput` instance. -/
structure JobOfferInput where
  title : PyStr
  company : PyStr
  location : PyStr
  source : JobSource
  url : PyStr
  scraped_at : Nat
  contract_type : Option ContractType := none
  salary : Option PyStr := none
  duration : Option PyStr := none
  reference : Option PyStr := none
  schedule_type : Option PyStr := none
  job_content_description : Option PyStr := none
  offer_id : Option PyStr := none
deriving DecidableEq

/-- Python `self.x if self.x != "N/A" else None` used by `to_job_offer`. -/
def naOpt (v : Option PyStr) : Option PyStr :=
  if v = some (cp "N/A") then none else v

/-- Embeds `determine_contract_type`: with the input field already typed as
the enumeration, a present value is returned as is (the direct enum match
succeeds) and a missing value stays `none`. -/
def determine_contract_type (i : JobOfferInput) : Option ContractType :=
  i.contract_type

/-- Embeds `JobOfferInput.to_job_offer`: a preset `offer_id` is passed
through (`self.offer_id or ""`), `"N/A"` free-text fields become `None`. -/
def to_job_offer (i : JobOfferInput) : Except Unit JobOffer :=
  validateJobOffer i.title i.company i.location i.source i.url i.scraped_at
    (i.offer_id.getD []) (determine_contract_type i) (naOpt i.salary)
    (naOpt i.duration) (naOpt i.reference) (naOpt i.schedule_type)
    (naOpt i.job_content_description)

/-! ## Filter engine (job_scraper_base.py, filter_job_title) -/

/-- Embeds `JobScraperBase.filter_job_title` with explicit filter lists:
skip when the include list is non-empty and no keyword is a case-insensitive
substring of the title, or the exclude list is non-empty and some keyword
is one. -/
def filter_job_title (job_title : PyStr)
    (include_filters exclude_filters : List PyStr) : Bool :=
  if include_filters ≠ [] ∧
      ¬ include_filters.any (fun kw => pySubstr (pyLower kw) (pyLower job_title)) then
    true
  else if exclude_filters ≠ [] ∧
      exclude_filters.any (fun kw => pySubstr (pyLower kw) (pyLower job_title)) then
    true
  else
    false

deriving instance DecidableEq for Except

/-! ## C1, C2: identity determinism and the offer_id invariant -/

/-- C1: per spec section 8, for all company, title and url the identity is
insensitive to letter case, trailing whitespace and URL query string:
`identity(c, t, u) = identity(upper(c), t + "  ", u + "?x=1")`. -/
theorem identity_determinism (c t u : PyStr) :
    identityFn c t u = identityFn (pyUpper c) (t ++ [32, 32]) (u ++ cp "?x=1") := by
  unfold identityFn generate_job_offer_id
  rw [pre_process_url_append_query, pyStrip_pyUpper, pyLower_pyUpper,
    pyStrip_append_spaces]

/-- A concrete `JobOfferInput`, parameterized by the preset offer id. -/
def sampleInput (oid : Option PyStr) : JobOfferInput where
  title := cp "Engineer"
  company := cp "Acme"
  location := cp "Paris"
  source := JobSource.BUSINESS_FRANCE
  url := cp "https://a.b/c"
  scraped_at := 0
  offer_id := oid

/-- C2 counterexample: two `JobOfferInput`s with identical company, title and
url but different preset 5-digit offer ids both validate, and the resulting
offers keep their distinct preset ids, neither of which is the value of the
identity function on the shared triple. So a validated offer's `offer_id`
is not always the identity of its normalized triple. -/
theorem offer_id_preset_breaks_identity_purity :
    (to_job_offer (sampleInput (some (cp "00000")))).map
      (fun o => (o.offer_id, o.company, o.title, o.url)) =
      Except.ok (cp "00000", cp "acme", cp "Engineer", cp "https://a.b/c") ∧
    (to_job_offer (sampleInput (some (cp "11111")))).map
      (fun o => (o.offer_id, o.company, o.title, o.url)) =
      Except.ok (cp "11111", cp "acme", cp "Engineer", cp "https://a.b/c") ∧
    cp "00000" ≠ cp "11111" ∧
    cp "00000" ≠ generate_job_offer_id (cp "acme") (cp "Engineer")
        (some (cp "https://a.b/c")) := by
  refine ⟨by decide, by decide, by decide, by decide⟩

set_option maxHeartbeats 2000000 in
/-- C2 as amended: when no offer id is preset (the empty string is passed),
every successfully validated `JobOffer` carries the identity of its own
validated company, title and url fields. -/
theorem offer_id_generated_when_not_preset
    (title company location : PyStr) (source : JobSource) (url : PyStr)
    (ts : Nat) (ct : Option ContractType) (sal dur ref sch desc : Option PyStr)
    (o : JobOffer)
    (h : validateJobOffer title company location source url ts [] ct
        sal dur ref sch desc = .ok o) :
    o.offer_id = generate_job_offer_id o.company o.title (some o.url) := by
  unfold validateJobOffer at h
  by_cases h1 : (pyStrip title).length < 1 ∨ 500 < (pyStrip title).length
  · rw [if_pos h1] at h; exact Except.noConfusion h
  rw [if_neg h1] at h
  by_cases h2 : (pyStrip company).length < 1 ∨ 200 < (pyStrip company).length
  · rw [if_pos h2] at h; exact Except.noConfusion h
  rw [if_neg h2] at h
  by_cases h3 : (pyStrip location).length < 1 ∨ 200 < (pyStrip location).length
  · rw [if_pos h3] at h; exact Except.noConfusion h
  rw [if_neg h3] at h
  by_cases h4 : 5 < (pyStrip ([] : PyStr)).length
  · rw [if_pos h4] at h; exact Except.noConfusion h
  rw [if_neg h4] at h
  by_cases h5 : ((sal.map pyStrip).map List.length).getD 0 > 100
  · rw [if_pos h5] at h; exact Except.noConfusion h
  rw [if_neg h5] at h
  by_cases h6 : ((dur.map pyStrip).map List.length).getD 0 > 100
  · rw [if_pos h6] at h; exact Except.noConfusion h
  rw [if_neg h6] at h
  by_cases h7 : ((ref.map pyStrip).map List.length).getD 0 > 100
  · rw [if_pos h7] at h; exact Except.noConfusion h
  rw [if_neg h7] at h
  by_cases h8 : ((sch.map pyStrip).map List.length).getD 0 > 100
  · rw [if_pos h8] at h; exact Except.noConfusion h
  rw [if_neg h8] at h
  by_cases h9 : ¬ startsWithHttp (pyStrip url)
  · rw [if_pos h9] at h; exact Except.noConfusion h
  rw [if_neg h9] at h
  by_cases h10 : isNA (pyStrip title) ∨ isNA (pyStrip company) ∨ isNA (pyStrip location)
  · rw [if_pos h10] at h; exact Except.noConfusion h
  rw [if_neg h10] at h
  by_cases h11 : (finalOfferId company title url []).length ≠ 5 ∨
      ¬ isDigits (finalOfferId company title url [])
  · rw [if_pos h11] at h; exact Except.noConfusion h
  rw [if_neg h11] at h
  injection h with h12
  subst h12
  show finalOfferId company title url [] =
    generate_job_offer_id (finalNorm company) (finalTitle title)
      (some (finalUrl url))
  unfold finalOfferId
  rw [if_pos (show pyStrip ([] : PyStr) = [] from rfl)]

/-- The validated offer produced by `sampleInput` with no preset id. -/
def sampleOffer : JobOffer where
  title := cp "Engineer"
  company := cp "acme"
  location := cp "paris"
  source := JobSource.BUSINESS_FRANCE
  url := cp "https://a.b/c"
  scraped_at := 0
  offer_id := cp "72545"
  contract_type := none
  salary := none
  duration := none
  reference := none
  schedule_type := none
  job_content_description := none

/-- Witness for the amended C2 theorem at a concrete validated offer. -/
theorem offer_id_generated_when_not_preset_witness :
    sampleOffer.offer_id =
      generate_job_offer_id sampleOffer.company sampleOffer.title
        (some sampleOffer.url) :=
  offer_id_generated_when_not_preset (cp "Engineer") (cp "Acme") (cp "Paris")
    JobSource.BUSINESS_FRANCE (cp "https://a.b/c") 0 none none none none none
    none sampleOffer (by decide)

/-- C6: the filter predicate is total and skips exactly when the include
list is non-empty with no case-insensitive substring match, or the exclude
list is non-empty with some case-insensitive substring match; empty lists
never skip; with the three concrete examples from the spec. -/
theorem filter_job_title_spec :
    (∀ (t : PyStr) (incl excl : List PyStr),
      filter_job_title t incl excl = true ↔
        ((incl ≠ [] ∧ ∀ kw ∈ incl, pySubstr (pyLower kw) (pyLower t) = false) ∨
         (excl ≠ [] ∧ ∃ kw ∈ excl, pySubstr (pyLower kw) (pyLower t) = true))) ∧
    (∀ t : PyStr, filter_job_title t [] [] = false) ∧
    filter_job_title (cp "Senior Data Engineer") [cp "data"] [] = false ∧
    filter_job_title (cp "Data Intern") [cp "data"] [cp "intern"] = true ∧
    filter_job_title (cp "Backend Role") [cp "data"] [] = true := by
  refine ⟨?_, fun t => rfl, by decide, by decide, by decide⟩
  intro t incl excl
  unfold filter_job_title
  by_cases hI : incl ≠ [] ∧
      ¬ incl.any (fun kw => pySubstr (pyLower kw) (pyLower t))
  · rw [if_pos hI]
    simp only [true_iff]
    left
    refine ⟨hI.1, fun kw hkw => ?_⟩
    have h2 := hI.2
    rw [List.any_eq_true] at h2
    push_neg at h2
    simpa using h2 kw hkw
  · rw [if_neg hI]
    by_cases hE : excl ≠ [] ∧
        excl.any (fun kw => pySubstr (pyLower kw) (pyLower t))
    · rw [if_pos hE]
      simp only [true_iff]
      right
      exact ⟨hE.1, by simpa [List.any_eq_true] using hE.2⟩
    · rw [if_neg hE]
      simp only [Bool.false_eq_true, false_iff]
      push_neg at hI hE
      rintro (⟨hne, hall⟩ | ⟨hne, kw, hkw, hsub⟩)
      · have := hI hne
        rw [List.any_eq_true] at this
        obtain ⟨kw, hkw, hsub⟩ := this
        have := hall kw hkw
        simp_all
      · exact (hE hne) (List.any_eq_true.mpr ⟨kw, hkw, hsub⟩)

/-! ## Dedup gateway: NotionClient (notion_integration.py)

The external store is an oracle `Store` giving the outcome of each query or
create call; `.error ()` models a raised exception. Functions return their
Python result paired with the ordered trace of store operations issued. -/

/-- A Notion database filter, as built by the existence checks. -/
inductive NFilter
  | equalsId : PyStr → NFilter
  | orIds : List PyStr → NFilter
deriving DecidableEq

/-- A page returned by a query; `offerId` is what `_extract_offer_id` reads
from its properties (empty when absent). -/
structure NotionPage where
  offerId : PyStr
deriving DecidableEq

/-- Page properties built by `JobOffer.to_notion_format`. -/
structure NotionProps where
  title : PyStr
  company : PyStr
  location : PyStr
  source : PyStr
  url : PyStr
  offerId : PyStr
  contractType : PyStr
  salary : PyStr
  duration : PyStr
  reference : PyStr
  scheduleType : PyStr
  description : PyStr
deriving DecidableEq

/-- The external record store as a deterministic oracle. -/
structure Store where
  query : NFilter → Except Unit (List NotionPage)
  create : NotionProps → Except Unit NotionPage

/-- One operation issued against the store. -/
inductive StoreOp
  | opQuery : NFilter → StoreOp
  | opCreate : NotionProps → StoreOp
deriving DecidableEq

/-- Value string of a `JobSource` (Python `(str, Enum)` with `auto()`). -/
def sourceValue : JobSource → PyStr
  | .BUSINESS_FRANCE => cp "1"
  | .AIR_FRANCE => cp "2"
  | .APPLE => cp "3"
  | .WELCOME_TO_THE_JUNGLE => cp "4"
  | .LINKEDIN => cp "5"
  | .UNKNOWN => cp "6"

/-- Value string of a `ContractType`. -/
def ctValue : ContractType → PyStr
  | .CDI => cp "CDI"
  | .CDD => cp "CDD"
  | .INTERNSHIP => cp "Stage"
  | .FREELANCE => cp "Freelance"
  | .TEMPORARY => cp "Temporary"
  | .FULL_TIME => cp "Full time"
  | .PART_TIME => cp "Part time"
  | .VIE => cp "VIE"
  | .OTHER => cp "Other"

/-- Python `x if x else d` on an optional string (empty is falsy). -/
def pyOr (v : Option PyStr) (d : PyStr) : PyStr :=
  match v with
  | some s => if s = [] then d else s
  | none => d

/-- The `notion_select` helper: the name, or `"N/A"` when falsy. -/
def notion_select (name : PyStr) : PyStr :=
  if name = [] then cp "N/A" else name

/-- The `notion_rich_text` helper: content truncated to 2000, `"N/A"` when
falsy. -/
def notion_rich_text (content : PyStr) : PyStr :=
  if content = [] then cp "N/A" else content.take 2000

/-- Embeds `JobOffer.to_notion_format`. -/
def to_notion_format (o : JobOffer) : NotionProps where
  title := o.title
  company := notion_select o.company
  location := notion_select o.location
  source := notion_select (sourceValue o.source)
  url := o.url
  offerId := notion_rich_text o.offer_id
  contractType := notion_select (pyOr (o.contract_type.map ctValue) (cp "N/A"))
  salary := notion_select (pyOr o.salary (cp "Non spécifié"))
  duration := notion_select (pyOr o.duration (cp "N/A"))
  reference := notion_select (pyOr o.reference (cp "N/A"))
  scheduleType := notion_select (pyOr o.schedule_type (cp "N/A"))
  description :=
    notion_rich_text
      (if 1950 < (o.job_content_description.getD []).length then
        (o.job_content_description.getD []).take 1950 ++ cp "..."
      else o.job_content_description.getD [])

/-- First-occurrence deduplication, as the keys of a Python dict built by
comprehension over a list. -/
def dedupFirstGo (seen : List PyStr) : List PyStr → List PyStr
  | [] => []
  | a :: t => if a ∈ seen then dedupFirstGo seen t
              else a :: dedupFirstGo (a :: seen) t

/-- Keys, in order, of `{x: ... for x in l}`. -/
def dedupFirst (l : List PyStr) : List PyStr := dedupFirstGo [] l

/-- Python `result.get(k, False)` on the association-list model of a dict. -/
def mapGetD : List (PyStr × Bool) → PyStr → Bool
  | [], _ => false
  | (a, b) :: rest, k => if a = k then b else mapGetD rest k

/-- Embeds `NotionClient._check_single_offer_exists`: a raised query error
is caught and reported as non-existence. -/
def check_single_offer_exists (st : Store) (offer_id : PyStr) :
    Bool × List StoreOp :=
  match st.query (NFilter.equalsId offer_id) with
  | .ok results => (decide (0 < results.length),
      [StoreOp.opQuery (NFilter.equalsId offer_id)])
  | .error _ => (false, [StoreOp.opQuery (NFilter.equalsId offer_id)])

/-- The filter `_check_multiple_offers_exist` builds: a simple equality for
one id, an OR filter with one clause per list entry otherwise. -/
def buildMultiFilter (ids : List PyStr) : NFilter :=
  match ids with
  | [id] => NFilter.equalsId id
  | _ => NFilter.orIds ids

/-- Embeds `NotionClient._check_multiple_offers_exist`: the result dict is
pre-seeded with `False` for every id, one query is issued, found ids are
marked, and a raised error leaves the all-false dict. -/
def check_multiple_offers_exist (st : Store) (offer_ids : List PyStr) :
    List (PyStr × Bool) × List StoreOp :=
  if offer_ids = [] then ((dedupFirst offer_ids).map (fun i => (i, false)), [])
  else
    match st.query (buildMultiFilter offer_ids) with
    | .error _ =>
        ((dedupFirst offer_ids).map (fun i => (i, false)),
         [StoreOp.opQuery (buildMultiFilter offer_ids)])
    | .ok pages =>
        ((dedupFirst offer_ids).map
          (fun i => (i, decide (i ∈ (pages.map NotionPage.offerId).filter
            (fun e => e ≠ [])))),
         [StoreOp.opQuery (buildMultiFilter offer_ids)])

/-- Embeds the list branch of `NotionClient.offer_exists`. -/
def offer_exists_batch (st : Store) (offers : List JobOffer) :
    List (PyStr × Bool) × List StoreOp :=
  if offers = [] then ([], [])
  else check_multiple_offers_exist st (offers.map JobOffer.offer_id)

/-- Embeds `NotionClient.create_page`: missing title aborts; when a
`JobOffer` is supplied its existence is re-checked and an existing offer
suppresses the write; the created page is returned on success and `none`
both on prior existence and on a raised create error. -/
def create_page (st : Store) (properties : NotionProps)
    (job_offer : Option JobOffer) : Option NotionPage × List StoreOp :=
  if properties.title = [] then (none, [])
  else
    match job_offer with
    | some o =>
        if (check_single_offer_exists st o.offer_id).1 then
          (none, (check_single_offer_exists st o.offer_id).2)
        else
          match st.create properties with
          | .ok page => (some page,
              (check_single_offer_exists st o.offer_id).2 ++
                [StoreOp.opCreate properties])
          | .error _ => (none,
              (check_single_offer_exists st o.offer_id).2 ++
                [StoreOp.opCreate properties])
    | none =>
        match st.create properties with
        | .ok page => (some page, [StoreOp.opCreate properties])
        | .error _ => (none, [StoreOp.opCreate properties])

/-- Embeds `NotionClient.create_page_from_job_offer`. -/
def create_page_from_job_offer (st : Store) (o : JobOffer) :
    Option NotionPage × List StoreOp :=
  create_page st (to_notion_format o) (some o)

/-- Embeds `NotionClient.create_pages_from_job_offers`: one batch existence
check up front, then one `create_page` per absent offer with the existence
check explicitly skipped (`job_offer = None`). -/
def create_pages_from_job_offers (st : Store) (offers : List JobOffer) :
    List (Option NotionPage) × List StoreOp :=
  if offers = [] then ([], [])
  else
    offers.foldl
      (fun acc o =>
        if mapGetD (offer_exists_batch st offers).1 o.offer_id then
          (acc.1 ++ [none], acc.2)
        else
          (acc.1 ++ [(create_page st (to_notion_format o) none).1],
           acc.2 ++ (create_page st (to_notion_format o) none).2))
      ([], (offer_exists_batch st offers).2)

/-! ## Concrete stores used in witnesses and counterexamples -/

/-- A store where every query finds nothing and every create succeeds,
returning a page carrying the written offer id. -/
def stNoneExist : Store where
  query := fun _ => .ok []
  create := fun p => .ok ⟨p.offerId⟩

/-- A store whose every call raises. -/
def stAllFail : Store where
  query := fun _ => .error ()
  create := fun _ => .error ()

/-- A store where every query finds one page with the given offer id. -/
def stHas (i : PyStr) : Store where
  query := fun _ => .ok [⟨i⟩]
  create := fun p => .ok ⟨p.offerId⟩

/-- A second concrete validated offer. -/
def sampleOffer2 : JobOffer where
  title := cp "Analyst"
  company := cp "beta"
  location := cp "lyon"
  source := JobSource.AIR_FRANCE
  url := cp "https://b.c/d"
  scraped_at := 0
  offer_id := cp "00042"
  contract_type := none
  salary := none
  duration := none
  reference := none
  schedule_type := none
  job_content_description := none

/-- The trace of the single existence check is always one equality query. -/
theorem check_single_trace (st : Store) (i : PyStr) :
    (check_single_offer_exists st i).2 = [StoreOp.opQuery (NFilter.equalsId i)] := by
  unfold check_single_offer_exists
  cases st.query (NFilter.equalsId i) <;> rfl

/-- Mapping `Prod.fst` over pairs tagged from a list gives the list back. -/
theorem map_fst_tag (l : List PyStr) (f : PyStr → Bool) :
    (l.map (fun i => (i, f i))).map Prod.fst = l := by
  induction l with
  | nil => rfl
  | cons a t ih => simp_all

/-- The batch check result has one entry per distinct input identity, in
first-occurrence order, whatever the store does. -/
theorem check_multiple_keys (st : Store) (ids : List PyStr) :
    ((check_multiple_offers_exist st ids).1).map Prod.fst = dedupFirst ids := by
  unfold check_multiple_offers_exist
  by_cases h : ids = []
  · rw [if_pos h]
    exact map_fst_tag _ _
  · rw [if_neg h]
    cases st.query (buildMultiFilter ids) <;> exact map_fst_tag _ _

/-- C3 counterexample: a batch check over a duplicated identity issues one
OR query that mentions the identity once per occurrence, twice here, so the
input is not deduplicated before querying (the result map is deduplicated). -/
theorem existsBatch_duplicate_ids_not_deduped :
    (check_multiple_offers_exist stNoneExist [cp "11111", cp "11111"]).2 =
      [StoreOp.opQuery (NFilter.orIds [cp "11111", cp "11111"])] ∧
    ([cp "11111", cp "11111"] : List PyStr).count (cp "11111") = 2 ∧
    (check_multiple_offers_exist stNoneExist [cp "11111", cp "11111"]).1 =
      [(cp "11111", false)] := by
  refine ⟨by decide, by decide, by decide⟩

/-- C3 as amended: the batch existence check returns an empty map without
querying for an empty input, issues a single equality query for one
identity, a single OR query listing every occurrence (without dedup) for
two or more, and its result map has one entry per distinct identity in
first-occurrence order. -/
theorem existsBatch_contract :
    (∀ st : Store, offer_exists_batch st [] = ([], [])) ∧
    (∀ (st : Store) (i : PyStr),
      (check_multiple_offers_exist st [i]).2 =
        [StoreOp.opQuery (NFilter.equalsId i)]) ∧
    (∀ (st : Store) (ids : List PyStr), 2 ≤ ids.length →
      (check_multiple_offers_exist st ids).2 =
        [StoreOp.opQuery (NFilter.orIds ids)]) ∧
    (∀ (st : Store) (ids : List PyStr),
      ((check_multiple_offers_exist st ids).1).map Prod.fst = dedupFirst ids) := by
  refine ⟨fun st => rfl, ?_, ?_, check_multiple_keys⟩
  · intro st i
    unfold check_multiple_offers_exist
    rw [if_neg (by simp)]
    cases st.query (buildMultiFilter [i]) <;> rfl
  · intro st ids h
    match ids with
    | a :: b :: t =>
      unfold check_multiple_offers_exist
      rw [if_neg (by simp)]
      cases st.query (buildMultiFilter (a :: b :: t)) <;> rfl

/-- Witness for the amended C3 theorem at a concrete store and input. -/
theorem existsBatch_contract_witness :
    (check_multiple_offers_exist stNoneExist [cp "00001", cp "00002"]).2 =
      [StoreOp.opQuery (NFilter.orIds [cp "00001", cp "00002"])] :=
  existsBatch_contract.2.2.1 stNoneExist [cp "00001", cp "00002"] (by decide)

/-- C4 counterexample: with the offer already in the store, `create_page`
returns `None` without writing; with an empty store whose create call
raises, it also returns `None` (after attempting the write). The two
outcomes are the same value, so a caller cannot distinguish a failure from
an already-exists result. -/
theorem createIfAbsent_failure_not_distinguishable :
    (create_page (stHas (cp "72545")) (to_notion_format sampleOffer)
      (some sampleOffer)).1 = none ∧
    (create_page (stHas (cp "72545")) (to_notion_format sampleOffer)
      (some sampleOffer)).2 =
      [StoreOp.opQuery (NFilter.equalsId (cp "72545"))] ∧
    (create_page stAllFail (to_notion_format sampleOffer)
      (some sampleOffer)).1 = none ∧
    (create_page stAllFail (to_notion_format sampleOffer)
      (some sampleOffer)).2 =
      [StoreOp.opQuery (NFilter.equalsId (cp "72545")),
       StoreOp.opCreate (to_notion_format sampleOffer)] := by
  refine ⟨by decide, by decide, by decide, by decide⟩

/-- C4 as amended: when the existence re-check reports the offer present,
`create_page` returns `None` and issues no write; on a successful write it
returns the created page; on a raised create error it returns `None`, the
same value as the already-exists outcome. -/
theorem create_page_outcomes (st : Store) (props : NotionProps) (o : JobOffer)
    (htitle : ¬ props.title = []) :
    ((check_single_offer_exists st o.offer_id).1 = true →
      create_page st props (some o) =
        (none, [StoreOp.opQuery (NFilter.equalsId o.offer_id)])) ∧
    ((check_single_offer_exists st o.offer_id).1 = false →
      ∀ page, st.create props = .ok page →
      create_page st props (some o) =
        (some page, [StoreOp.opQuery (NFilter.equalsId o.offer_id),
          StoreOp.opCreate props])) ∧
    ((check_single_offer_exists st o.offer_id).1 = false →
      st.create props = .error () →
      create_page st props (some o) =
        (none, [StoreOp.opQuery (NFilter.equalsId o.offer_id),
          StoreOp.opCreate props])) := by
  have ht := check_single_trace st o.offer_id
  refine ⟨?_, ?_, ?_⟩
  · intro hc
    unfold create_page
    rw [if_neg htitle]
    show (if (check_single_offer_exists st o.offer_id).1 = true then _ else _) = _
    rw [if_pos hc, ht]
  · intro hc page hcr
    unfold create_page
    rw [if_neg htitle]
    show (if (check_single_offer_exists st o.offer_id).1 = true then _ else _) = _
    rw [if_neg (by simp [hc]), hcr, ht]
    rfl
  · intro hc hcr
    unfold create_page
    rw [if_neg htitle]
    show (if (check_single_offer_exists st o.offer_id).1 = true then _ else _) = _
    rw [if_neg (by simp [hc]), hcr, ht]
    rfl

/-- Witness for the amended C4 theorem at a concrete store and offer. -/
theorem create_page_outcomes_witness :
    create_page stNoneExist (to_notion_format sampleOffer2)
      (some sampleOffer2) =
      (some ⟨cp "00042"⟩,
       [StoreOp.opQuery (NFilter.equalsId (cp "00042")),
        StoreOp.opCreate (to_notion_format sampleOffer2)]) :=
  (create_page_outcomes stNoneExist (to_notion_format sampleOffer2)
      sampleOffer2 (by decide)).2.1 (by decide) ⟨cp "00042"⟩ (by decide)

/-- C10: a raised store error makes the single existence check report
`False` and the batch check return its pre-seeded all-false map; in every
case the batch result's key list is the distinct input identities in
first-occurrence order. -/
theorem store_error_reports_nonexistence :
    (∀ (st : Store) (i : PyStr),
      st.query (NFilter.equalsId i) = .error () →
      (check_single_offer_exists st i).1 = false) ∧
    (∀ (st : Store) (ids : List PyStr), ids ≠ [] →
      st.query (buildMultiFilter ids) = .error () →
      (check_multiple_offers_exist st ids).1 =
        (dedupFirst ids).map (fun i => (i, false))) ∧
    (∀ (st : Store) (ids : List PyStr),
      ((check_multiple_offers_exist st ids).1).map Prod.fst = dedupFirst ids) := by
  refine ⟨?_, ?_, check_multiple_keys⟩
  · intro st i hq
    unfold check_single_offer_exists
    rw [hq]
  · intro st ids hne hq
    unfold check_multiple_offers_exist
    rw [if_neg hne, hq]

/-- Witness for C10 at the always-failing store. -/
theorem store_error_reports_nonexistence_witness :
    (check_single_offer_exists stAllFail (cp "00001")).1 = false ∧
    (check_multiple_offers_exist stAllFail
      [cp "00001", cp "00002", cp "00001"]).1 =
      [(cp "00001", false), (cp "00002", false)] := by
  constructor
  · exact store_error_reports_nonexistence.1 stAllFail (cp "00001") (by decide)
  · exact (store_error_reports_nonexistence.2.1 stAllFail
      [cp "00001", cp "00002", cp "00001"] (by decide) (by decide)).trans
      (by decide)

/-- The trace of a write with the existence check skipped is one create
operation (or nothing when the title is missing). -/
theorem create_page_none_trace (st : Store) (props : NotionProps) :
    (create_page st props none).2 =
      if props.title = [] then [] else [StoreOp.opCreate props] := by
  unfold create_page
  by_cases h : props.title = []
  · rw [if_pos h, if_pos h]
  · rw [if_neg h, if_neg h]
    cases st.create props <;> rfl

/-- Trace of the batch-creation fold, for any accumulator. -/
theorem create_pages_foldl_trace (st : Store) (ex : List (PyStr × Bool)) :
    ∀ (offers : List JobOffer) (acc1 : List (Option NotionPage))
      (acc2 : List StoreOp),
      (offers.foldl
        (fun acc o =>
          if mapGetD ex o.offer_id then (acc.1 ++ [none], acc.2)
          else
            (acc.1 ++ [(create_page st (to_notion_format o) none).1],
             acc.2 ++ (create_page st (to_notion_format o) none).2))
        (acc1, acc2)).2 =
      acc2 ++ offers.flatMap (fun o =>
        if mapGetD ex o.offer_id then []
        else (create_page st (to_notion_format o) none).2) := by
  intro offers
  induction offers with
  | nil => intro acc1 acc2; simp
  | cons o t ih =>
    intro acc1 acc2
    simp only [List.foldl_cons, List.flatMap_cons]
    by_cases h : mapGetD ex o.offer_id = true
    · rw [if_pos h, if_pos h, ih]
      simp
    · rw [if_neg h, if_neg h, ih]
      simp [List.append_assoc]

/-- C5 counterexample: with two absent offers, the batch creation issues one
batch query and then two consecutive writes; the second write is immediately
preceded by the first write, not by an existence check for its identity, so
not every write is directly preceded by a per-item existence re-check. -/
theorem batch_create_writes_without_recheck :
    (create_pages_from_job_offers stNoneExist [sampleOffer, sampleOffer2]).2 =
      [StoreOp.opQuery (NFilter.orIds [cp "72545", cp "00042"]),
       StoreOp.opCreate (to_notion_format sampleOffer),
       StoreOp.opCreate (to_notion_format sampleOffer2)] := by
  decide

/-- C5 as amended: the batch creation performs a single batch existence
check up front and then writes each absent posting with no per-item
re-check (its trace is the batch query followed only by create operations),
while the single-item path re-checks existence immediately before any
write. -/
theorem batch_create_trace :
    (∀ (st : Store) (offers : List JobOffer),
      (create_pages_from_job_offers st offers).2 =
        if offers = [] then []
        else
          (offer_exists_batch st offers).2 ++
            offers.flatMap (fun o =>
              if mapGetD (offer_exists_batch st offers).1 o.offer_id then []
              else if (to_notion_format o).title = [] then []
              else [StoreOp.opCreate (to_notion_format o)])) ∧
    (∀ (st : Store) (o : JobOffer),
      (create_page_from_job_offer st o).2 =
        if (to_notion_format o).title = [] then []
        else
          StoreOp.opQuery (NFilter.equalsId o.offer_id) ::
            (if (check_single_offer_exists st o.offer_id).1 then []
             else [StoreOp.opCreate (to_notion_format o)])) := by
  constructor
  · intro st offers
    by_cases h : offers = []
    · subst h; rfl
    · rw [if_neg h]
      unfold create_pages_from_job_offers
      rw [if_neg h, create_pages_foldl_trace]
      congr 1
      have : ∀ o : JobOffer,
          (if mapGetD (offer_exists_batch st offers).1 o.offer_id then []
           else (create_page st (to_notion_format o) none).2) =
          (if mapGetD (offer_exists_batch st offers).1 o.offer_id then []
           else if (to_notion_format o).title = [] then []
           else [StoreOp.opCreate (to_notion_format o)]) := by
        intro o
        by_cases hm : mapGetD (offer_exists_batch st offers).1 o.offer_id = true
        · rw [if_pos hm, if_pos hm]
        · rw [if_neg hm, if_neg hm, create_page_none_trace]
      exact congrArg (List.flatMap offers) (funext this)
  · intro st o
    unfold create_page_from_job_offer create_page
    by_cases h : (to_notion_format o).title = []
    · rw [if_pos h, if_pos h]
    · rw [if_neg h, if_neg h]
      show ((if (check_single_offer_exists st o.offer_id).1 = true
          then _ else _ : Option NotionPage × List StoreOp)).2 = _
      by_cases hc : (check_single_offer_exists st o.offer_id).1 = true
      · rw [if_pos hc, if_pos hc, check_single_trace]
      · rw [if_neg hc, if_neg hc]
        cases st.create (to_notion_format o) <;>
          simp [check_single_trace]

/-! ## Orchestrator: OfferProcessor (offer_processor.py) -/

/-- Configuration and scrape outcome of one source for a run: the `enabled`
flag from the scrapers config, and the result of `scraper.scrape()` where
`.error ()` models a raised exception. A missing config entry is `none`. -/
structure SourceCfg where
  enabled : Bool
  outcome : Except Unit (List JobOffer)
deriving DecidableEq

/-- Loop body of `OfferProcessor.scrape_offers`: an unknown or disabled
scraper id is skipped, a raised scrape error is caught and contributes
nothing, and successful offers are appended. -/
def scrapeStep (cfg : PyStr → Option SourceCfg)
    (all_offers : List JobOffer) (scraper_id : PyStr) : List JobOffer :=
  match cfg scraper_id with
  | none => all_offers
  | some c =>
      if !c.enabled then all_offers
      else
        match c.outcome with
        | .ok offers => all_offers ++ offers
        | .error _ => all_offers

/-- Embeds `OfferProcessor.scrape_offers` over the selected scraper ids. -/
def scrape_offers (cfg : PyStr → Option SourceCfg) (selected : List PyStr) :
    List JobOffer :=
  selected.foldl (scrapeStep cfg) []

/-- One observable event of offer processing. -/
inductive PEvent
  | evOp : StoreOp → PEvent
  | evSms : JobOffer → PEvent
  | evCreated : JobOffer → PEvent
  | evFailedCreate : JobOffer → PEvent
  | evSkipped : JobOffer → PEvent
deriving DecidableEq

/-- Python `offer.source not in [JobSource.LINKEDIN,
JobSource.WELCOME_TO_THE_JUNGLE]` gating the SMS in `_process_new_offer`. -/
def smsEligible (o : JobOffer) : Bool :=
  match o.source with
  | JobSource.LINKEDIN => false
  | JobSource.WELCOME_TO_THE_JUNGLE => false
  | _ => true

/-- Embeds `OfferProcessor._process_new_offer`: the SMS is sent first, for
eligible sources, before the Notion page creation is attempted; the create
outcome is then logged as created or failed. -/
def process_new_offer (st : Store) (o : JobOffer) : List PEvent :=
  (if smsEligible o then [PEvent.evSms o] else []) ++
  ((create_page_from_job_offer st o).2.map PEvent.evOp) ++
  (match (create_page_from_job_offer st o).1 with
   | some _ => [PEvent.evCreated o]
   | none => [PEvent.evFailedCreate o])

/-- Loop body of `OfferProcessor.process_offers`. -/
def processStep (st : Store) (exmap : List (PyStr × Bool))
    (acc : List PEvent) (o : JobOffer) : List PEvent :=
  if mapGetD exmap o.offer_id then acc ++ [PEvent.evSkipped o]
  else acc ++ process_new_offer st o

/-- Embeds `OfferProcessor.process_offers`: one batch existence check, then
each offer is either skipped as a duplicate or processed as new. -/
def process_offers (st : Store) (offers : List JobOffer) : List PEvent :=
  if offers = [] then []
  else
    ((offer_exists_batch st offers).2.map PEvent.evOp) ++
    offers.foldl (processStep st (offer_exists_batch st offers).1) []

/-- Number of notifier calls in a trace. -/
def countSms (tr : List PEvent) : Nat :=
  (tr.filter (fun e => match e with
    | PEvent.evSms _ => true
    | _ => false)).length

/-- Number of created outcomes in a trace. -/
def countCreated (tr : List PEvent) : Nat :=
  (tr.filter (fun e => match e with
    | PEvent.evCreated _ => true
    | _ => false)).length

/-! ## VIE pagination loop (vie.py, extract_all_offers_url) -/

/-- Embeds the `while True` click loop of
`VIEJobScraper.extract_all_offers_url` against a DOM oracle: `counts k` is
the number of `.figure-item` elements visible after the `k`-th click. State
is `(previous_count, no_change_attempts, clicks)` with `max_attempts = 3`;
the loop stops after three consecutive clicks with no count change and
reports the total number of clicks. `fuel` bounds the recursion; `none`
means the loop was still running after `fuel` iterations. -/
def vieLoopGo (counts : Nat → Nat) :
    Nat → Nat → Nat → Nat → Option Nat
  | 0, _, _, _ => none
  | fuel + 1, previous_count, no_change_attempts, clicks =>
      if counts clicks = previous_count then
        if 3 ≤ no_change_attempts + 1 then some (clicks + 1)
        else vieLoopGo counts fuel previous_count (no_change_attempts + 1)
          (clicks + 1)
      else vieLoopGo counts fuel (counts clicks) 0 (clicks + 1)

/-- The click loop from its initial state (`previous_count = 0`,
`no_change_attempts = 0`). -/
def extract_all_offers_loop (counts : Nat → Nat) (fuel : Nat) : Option Nat :=
  vieLoopGo counts fuel 0 0 0

/-- One visible `.figure-item` of the loaded VIE page. -/
structure VieItem where
  title : PyStr
  company : PyStr
  location : PyStr
deriving DecidableEq

/-- Embeds the collection pass of `VIEJobScraper.parse_offers`: the loaded
items are traversed once, in order, keeping those the title filter does not
skip. -/
def vie_parse_offers (items : List VieItem) (incl excl : List PyStr) :
    List VieItem :=
  items.filter (fun it => !(filter_job_title it.title incl excl))

/-- A DOM oracle whose item count plateaus at 3 from the third click on. -/
def vieCounts : Nat → Nat := fun n => if n < 2 then n + 1 else 3

/-- One scrape step from an accumulator only appends. -/
theorem scrapeStep_acc (cfg : PyStr → Option SourceCfg)
    (acc : List JobOffer) (i : PyStr) :
    scrapeStep cfg acc i = acc ++ scrapeStep cfg [] i := by
  unfold scrapeStep
  cases cfg i with
  | none => simp
  | some c => cases hc : c.enabled <;> cases ho : c.outcome <;> simp [hc, ho]

/-- The scrape loop from any accumulator prepends the accumulator. -/
theorem scrape_offers_acc (cfg : PyStr → Option SourceCfg) :
    ∀ (selected : List PyStr) (acc : List JobOffer),
      selected.foldl (scrapeStep cfg) acc = acc ++ scrape_offers cfg selected := by
  intro selected
  induction selected with
  | nil => intro acc; simp [scrape_offers]
  | cons i t ih =>
      intro acc
      simp only [List.foldl_cons]
      rw [ih (scrapeStep cfg acc i), scrapeStep_acc]
      unfold scrape_offers
      simp only [List.foldl_cons]
      rw [ih (scrapeStep cfg [] i), List.append_assoc]
      rfl

/-- C7: scraping a list of sources aggregates per-source results
independently; a source whose scrape raises contributes nothing while every
other selected source still contributes, and an enabled successful source
contributes exactly its offers. -/
theorem scraper_failure_isolated :
    (∀ (cfg : PyStr → Option SourceCfg) (l1 l2 : List PyStr),
      scrape_offers cfg (l1 ++ l2) =
        scrape_offers cfg l1 ++ scrape_offers cfg l2) ∧
    (∀ (cfg : PyStr → Option SourceCfg) (fid : PyStr) (c : SourceCfg),
      cfg fid = some c → c.enabled = true → c.outcome = .error () →
      scrape_offers cfg [fid] = []) ∧
    (∀ (cfg : PyStr → Option SourceCfg) (fid : PyStr) (c : SourceCfg)
      (offers : List JobOffer),
      cfg fid = some c → c.enabled = true → c.outcome = .ok offers →
      scrape_offers cfg [fid] = offers) := by
  refine ⟨?_, ?_, ?_⟩
  · intro cfg l1 l2
    unfold scrape_offers
    rw [List.foldl_append, scrape_offers_acc cfg l2 (List.foldl (scrapeStep cfg) [] l1)]
    rfl
  · intro cfg fid c hcfg hen hout
    simp [scrape_offers, scrapeStep, hcfg, hen, hout]
  · intro cfg fid c offers hcfg hen hout
    simp [scrape_offers, scrapeStep, hcfg, hen, hout]

/-- A concrete scraper configuration: sources 1 and 3 succeed, source 2
raises. -/
def cfgSample : PyStr → Option SourceCfg := fun i =>
  if i = cp "1" then some ⟨true, .ok [sampleOffer]⟩
  else if i = cp "2" then some ⟨true, .error ()⟩
  else if i = cp "3" then some ⟨true, .ok [sampleOffer2]⟩
  else none

/-- Witness for C7: the failing source alone yields nothing, and splitting
around it keeps the rest aggregated. -/
theorem scraper_failure_isolated_witness :
    scrape_offers cfgSample [cp "2"] = [] ∧
    scrape_offers cfgSample ([cp "1"] ++ [cp "2", cp "3"]) =
      scrape_offers cfgSample [cp "1"] ++
        scrape_offers cfgSample [cp "2", cp "3"] := by
  constructor
  · exact scraper_failure_isolated.2.1 cfgSample (cp "2")
      ⟨true, .error ()⟩ (by decide) rfl rfl
  · exact scraper_failure_isolated.1 cfgSample [cp "1"] [cp "2", cp "3"]

/-- Notifier-call counting distributes over trace concatenation. -/
theorem countSms_append (a b : List PEvent) :
    countSms (a ++ b) = countSms a + countSms b := by
  simp [countSms, List.filter_append]

/-- Store operations are not notifier calls. -/
theorem countSms_map_evOp (ops : List StoreOp) :
    countSms (ops.map PEvent.evOp) = 0 := by
  induction ops with
  | nil => rfl
  | cons a t ih => simp only [List.map_cons, countSms, List.filter_cons] at ih ⊢; exact ih

/-- Processing one new offer sends exactly one SMS when its source is
eligible and none otherwise, regardless of the create outcome. -/
theorem countSms_process_new (st : Store) (o : JobOffer) :
    countSms (process_new_offer st o) = if smsEligible o then 1 else 0 := by
  unfold process_new_offer
  rw [countSms_append, countSms_append, countSms_map_evOp]
  cases hs : smsEligible o <;> cases hr : (create_page_from_job_offer st o).1
  all_goals simp [countSms]

/-- SMS count of the processing loop, for any accumulator. -/
theorem process_offers_foldl_sms (st : Store) (exmap : List (PyStr × Bool)) :
    ∀ (offers : List JobOffer) (acc : List PEvent),
      countSms (offers.foldl (processStep st exmap) acc) =
        countSms acc +
          (offers.filter (fun o =>
            !(mapGetD exmap o.offer_id) && smsEligible o)).length := by
  intro offers
  induction offers with
  | nil => intro acc; simp
  | cons o t ih =>
      intro acc
      simp only [List.foldl_cons, List.filter_cons]
      by_cases hm : mapGetD exmap o.offer_id = true
      · rw [show processStep st exmap acc o = acc ++ [PEvent.evSkipped o] from
          by simp [processStep, hm]]
        rw [ih, countSms_append]
        have hcond : (!mapGetD exmap o.offer_id && smsEligible o) = false := by
          simp [hm]
        rw [hcond]
        simp [countSms]
      · have hm2 : mapGetD exmap o.offer_id = false := by simpa using hm
        rw [show processStep st exmap acc o = acc ++ process_new_offer st o from
          by simp [processStep, hm2]]
        rw [ih, countSms_append, countSms_process_new]
        have hcond : (!mapGetD exmap o.offer_id && smsEligible o) =
            smsEligible o := by simp [hm2]
        rw [hcond]
        cases smsEligible o
        · simp
        · simp
          omega

/-- A store where queries find nothing but every create raises. -/
def stCreateFails : Store where
  query := fun _ => .ok []
  create := fun _ => .error ()

/-- C8 counterexample: one new offer whose page creation fails still
triggers the notifier once while zero pages are created, so the
notification is not tied to a created outcome. -/
theorem notify_fires_despite_failed_create :
    countSms (process_offers stCreateFails [sampleOffer]) = 1 ∧
    countCreated (process_offers stCreateFails [sampleOffer]) = 0 := by
  refine ⟨by decide, by decide⟩

/-- Third concrete validated offer for the end-to-end scenario. -/
def sampleOffer3 : JobOffer where
  title := cp "Data Scientist"
  company := cp "gamma"
  location := cp "nice"
  source := JobSource.APPLE
  url := cp "https://c.d/e"
  scraped_at := 0
  offer_id := cp "00100"
  contract_type := none
  salary := none
  duration := none
  reference := none
  schedule_type := none
  job_content_description := none

/-- Fourth concrete validated offer for the end-to-end scenario. -/
def sampleOffer4 : JobOffer where
  title := cp "Data Engineer"
  company := cp "delta"
  location := cp "lille"
  source := JobSource.BUSINESS_FRANCE
  url := cp "https://d.e/f"
  scraped_at := 0
  offer_id := cp "00200"
  contract_type := none
  salary := none
  duration := none
  reference := none
  schedule_type := none
  job_content_description := none

/-- The four filtered-in offers of the end-to-end scenario. -/
def scenarioOffers : List JobOffer :=
  [sampleOffer, sampleOffer2, sampleOffer3, sampleOffer4]

/-- A store that reports exactly the identity of `sampleOffer` as already
present; creates succeed. -/
def stScenario : Store where
  query := fun f =>
    match f with
    | NFilter.equalsId i =>
        if i = cp "72545" then .ok [⟨cp "72545"⟩] else .ok []
    | NFilter.orIds _ => .ok [⟨cp "72545"⟩]
  create := fun p => .ok ⟨p.offerId⟩

/-- C8 as amended: the notifier fires exactly once per offer that passes
the duplicate check and has an SMS-eligible source, before creation and
regardless of the create outcome; in the end-to-end scenario of four
filtered-in offers with one pre-existing, it fires exactly 3 times, 3 pages
are created and 1 offer is skipped. -/
theorem notify_once_per_new_eligible_offer :
    (∀ (st : Store) (offers : List JobOffer),
      countSms (process_offers st offers) =
        (offers.filter (fun o =>
          !(mapGetD (offer_exists_batch st offers).1 o.offer_id) &&
            smsEligible o)).length) ∧
    countSms (process_offers stScenario scenarioOffers) = 3 ∧
    countCreated (process_offers stScenario scenarioOffers) = 3 ∧
    (process_offers stScenario scenarioOffers).count
      (PEvent.evSkipped sampleOffer) = 1 := by
  refine ⟨?_, by decide, by decide, by decide⟩
  intro st offers
  by_cases h : offers = []
  · subst h; rfl
  · unfold process_offers
    rw [if_neg h, countSms_append, countSms_map_evOp,
      process_offers_foldl_sms]
    simp [countSms]

/-- Once the previous count equals the plateau value, the loop stops within
`3 - attempts` further clicks. -/
theorem vieLoopGo_plateau (counts : Nat → Nat) (v : Nat) :
    ∀ (fuel attempts clicks : Nat),
      (∀ n, clicks ≤ n → counts n = v) →
      attempts ≤ 2 → 3 - attempts ≤ fuel →
      ∃ m, vieLoopGo counts fuel v attempts clicks = some m ∧
        m ≤ clicks + (3 - attempts) := by
  intro fuel
  induction fuel with
  | zero => intro attempts clicks hp ha hf; omega
  | succ f ih =>
      intro attempts clicks hp ha hf
      have hc : counts clicks = v := hp clicks (Nat.le_refl _)
      rw [vieLoopGo, if_pos hc]
      by_cases hb : 3 ≤ attempts + 1
      · rw [if_pos hb]
        exact ⟨clicks + 1, rfl, by omega⟩
      · rw [if_neg hb]
        obtain ⟨m, hm, hle⟩ := ih (attempts + 1) (clicks + 1)
          (fun n hn => hp n (by omega)) (by omega) (by omega)
        exact ⟨m, hm, by omega⟩

/-- From any state with at most two failed attempts, a count sequence that
plateaus from click `N` on makes the loop stop within `N + 4` clicks. -/
theorem vieLoopGo_stops (counts : Nat → Nat) (N : Nat) :
    ∀ (fuel clicks prev attempts : Nat),
      (∀ n, N ≤ n → counts n = counts N) →
      clicks ≤ N → attempts ≤ 2 → N - clicks + 4 ≤ fuel →
      ∃ m, vieLoopGo counts fuel prev attempts clicks = some m ∧ m ≤ N + 4 := by
  intro fuel
  induction fuel with
  | zero => intro clicks prev attempts hp hcl ha hf; omega
  | succ f ih =>
      intro clicks prev attempts hp hcl ha hf
      rw [vieLoopGo]
      by_cases hcleq : clicks = N
      · subst hcleq
        by_cases hc : counts clicks = prev
        · rw [if_pos hc]
          by_cases hb : 3 ≤ attempts + 1
          · rw [if_pos hb]
            exact ⟨clicks + 1, rfl, by omega⟩
          · rw [if_neg hb]
            obtain ⟨m, hm, hle⟩ := vieLoopGo_plateau counts prev f
              (attempts + 1) (clicks + 1)
              (fun n hn => by rw [hp n (by omega), hp clicks (Nat.le_refl _), hc])
              (by omega) (by omega)
            exact ⟨m, hm, by omega⟩
        · rw [if_neg hc]
          obtain ⟨m, hm, hle⟩ := vieLoopGo_plateau counts (counts clicks) f
            0 (clicks + 1)
            (fun n hn => by rw [hp n (by omega), hp clicks (Nat.le_refl _)])
            (by omega) (by omega)
          exact ⟨m, hm, by omega⟩
      · by_cases hc : counts clicks = prev
        · rw [if_pos hc]
          by_cases hb : 3 ≤ attempts + 1
          · rw [if_pos hb]
            exact ⟨clicks + 1, rfl, by omega⟩
          · rw [if_neg hb]
            obtain ⟨m, hm, hle⟩ := ih (clicks + 1) prev (attempts + 1) hp
              (by omega) (by omega) (by omega)
            exact ⟨m, hm, hle⟩
        · rw [if_neg hc]
          obtain ⟨m, hm, hle⟩ := ih (clicks + 1) (counts clicks) 0 hp
            (by omega) (by omega) (by omega)
          exact ⟨m, hm, hle⟩

/-- C9: on a source whose visible-item count plateaus from click `N` on,
the click loop (with `max_attempts = 3`) terminates after at most `N + 4`
clicks, that is at most 3 clicks beyond the first observation of the
plateau value; and the collection pass reads the final item list exactly
once, so it emits a sublist of the loaded items and introduces no
duplicates. -/
theorem pagination_terminates :
    (∀ (counts : Nat → Nat) (N fuel : Nat),
      (∀ n, N ≤ n → counts n = counts N) → N + 4 ≤ fuel →
      ∃ m, extract_all_offers_loop counts fuel = some m ∧ m ≤ N + 4) ∧
    (∀ (items : List VieItem) (incl excl : List PyStr),
      (vie_parse_offers items incl excl).Sublist items) ∧
    (∀ (items : List VieItem) (incl excl : List PyStr),
      items.Nodup → (vie_parse_offers items incl excl).Nodup) := by
  refine ⟨?_, ?_, ?_⟩
  · intro counts N fuel hp hf
    exact vieLoopGo_stops counts N fuel 0 0 0 hp (by omega) (by omega)
      (by omega)
  · intro items incl excl
    exact List.filter_sublist items
  · intro items incl excl h
    exact List.Sublist.nodup (List.filter_sublist items) h

/-- Witness for C9: a concrete count oracle that plateaus at three items
from the third click; the loop stops after six clicks and a duplicate-free
item list stays duplicate-free. -/
theorem pagination_terminates_witness :
    (extract_all_offers_loop vieCounts 6).isSome = true ∧
    (vie_parse_offers [⟨cp "Data Engineer", cp "acme", cp "paris"⟩]
      [cp "data"] []).Nodup := by
  constructor
  · obtain ⟨m, hm, hle⟩ := pagination_terminates.1 vieCounts 2 6
      (fun n hn => by
        unfold vieCounts
        rw [if_neg (by omega), if_neg (by omega)])
      (by omega)
    rw [hm]
    rfl
  · exact pagination_terminates.2.2
      [⟨cp "Data Engineer", cp "acme", cp "paris"⟩] [cp "data"] []
      (by decide)
